import Mathlib

/-!
Verification of the wb-price-optimizer frontend sources against the
natural-language specification.

The JavaScript sources (src/static/js/app.js, src/unnamed/part_000,
src/unnamed/part_001) are shallowly embedded below: JS numbers are modelled
as exact rationals (ℚ) where only arithmetic and order comparisons occur,
strings as Lean strings or lists of characters, absent/undefined JSON fields
as Option, thrown TypeErrors as Except.error.  The backend engine described
in the spec is not part of src/; the two definitions marked
"Modelled from the spec:" reconstruct the relevant contracts from the
specification text.
-/

/-! ## C1: elasticity interpretation (part_000, `interpretElasticity`) -/

/-- The four possible outputs of `interpretElasticity`: the "no data"
message and the three classifications. -/
inductive ElasticityInterp where
  | noData
  | inelastic
  | moderate
  | highlyElastic
deriving DecidableEq, Repr

/-- Embedding of `interpretElasticity(e)` from src/unnamed/part_000
(lines 320–326):
`if (!e) return 'Нет данных';` — a JS-falsy coefficient (0) yields the
"no data" message; otherwise `abs < 0.5` → inelastic, `abs < 1.5` →
moderate, else highly elastic. -/
def interpretElasticity (e : ℚ) : ElasticityInterp :=
  if e = 0 then .noData
  else if |e| < 1/2 then .inelastic
  else if |e| < 3/2 then .moderate
  else .highlyElastic

/-! ## C8: min-reviews fallback (app.js `handleCompetitorAnalysis`,
part_000 `searchCompetitors`) -/

/-- Embedding of `parseInt(...min_reviews...) || 500` from
src/static/js/app.js (line 311) and src/unnamed/part_000 (line 483).
The parse result is `none` when `parseInt` returns NaN; JS `||` falls
through on the falsy numbers NaN and 0. -/
def minReviewsSent (parsed : Option ℤ) : ℤ :=
  match parsed with
  | none => 500
  | some v => if v = 0 then 500 else v

/-! ## C9: string truncation (part_000, `truncate`) -/

/-- Embedding of `truncate(str, len)` from src/unnamed/part_000
(lines 345–348).  JS strings are modelled as lists of characters
(the only falsy string is the empty string). -/
def truncateStr (s : List Char) (n : ℕ) : List Char :=
  if s = [] then "N/A".toList
  else if n < s.length then s.take n ++ "...".toList
  else s

/-! ## C3 / C7: competitor result renderers -/

/-- One competitor entry of the `/competitors/analyze` response as read by
the renderers in src/static/js/app.js and src/unnamed/part_000. -/
structure Competitor where
  nm_id : ℕ
  price : ℚ
  rating : ℚ
  reviews : ℕ
  sales_per_day : ℚ
  in_stock : Option Bool
deriving DecidableEq, Repr

/-- The `market_stats` object of the `/competitors/analyze` response. -/
structure MarketStats where
  total_competitors : ℕ
  average_price : ℚ
  median_price : ℚ
  min_price : ℚ
  max_price : ℚ
deriving DecidableEq, Repr

/-- The `/competitors/analyze` response as read by
`renderCompetitorResults`; either field may be absent. -/
structure CompetitorResponse where
  competitors : Option (List Competitor)
  market_stats : Option MarketStats
deriving DecidableEq, Repr

/-- The observable outcome of a competitor-results renderer: the explicit
"no competitors found" presentation, or the statistics card together with
the list of rendered top-competitor entries. -/
inductive CompetitorRender where
  | noCompetitors
  | results (stats : MarketStats) (top : List Competitor)
deriving DecidableEq, Repr

/-- Embedding of `renderCompetitorResults(data)` from src/static/js/app.js
(lines 346–438).  The guard `!data.competitors || data.competitors.length
=== 0` renders the "no competitors" alert and returns; otherwise the code
reads `data.market_stats` (a TypeError is thrown if it is absent) and
renders `competitors.slice(0, 6)`. -/
def renderCompetitorResults (data : CompetitorResponse) :
    Except String CompetitorRender :=
  match data.competitors with
  | none => .ok .noCompetitors
  | some cs =>
    if cs.length = 0 then .ok .noCompetitors
    else
      match data.market_stats with
      | none => .error "TypeError: cannot read properties of undefined"
      | some stats => .ok (.results stats (cs.take 6))

/-- Embedding of `renderCompetitorResults(data)` from src/unnamed/part_000
(second document, lines 508–518): identical guard, top list
`competitors.slice(0, 10)`. -/
def renderCompetitorResultsV2 (data : CompetitorResponse) :
    Except String CompetitorRender :=
  match data.competitors with
  | none => .ok .noCompetitors
  | some cs =>
    if cs.length = 0 then .ok .noCompetitors
    else
      match data.market_stats with
      | none => .error "TypeError: cannot read properties of undefined"
      | some stats => .ok (.results stats (cs.take 10))

/-- A competitor entry in the src/unnamed/part_001 response shape (fields
read by `displayCompetitorResults`: `name`, `brand`,
`price_with_discount`, `reviews_count`, `rating`, `nm_id`). -/
structure CompetitorV1 where
  nm_id : ℕ
  name : String
  brand : String
  price_with_discount : ℚ
  reviews_count : ℕ
  rating : ℚ
deriving DecidableEq, Repr

/-- The `our_product` object read by `displayCompetitorResults` in
src/unnamed/part_001. -/
structure OurProduct where
  name : String
  category : String
  size : String
  price_with_discount : ℚ
  reviews_count : ℕ
  rating : ℚ
deriving DecidableEq, Repr

/-- The `analysis.our_position` object of the part_001 response. -/
structure OurPosition where
  percentile : ℚ
  position_description : String
deriving DecidableEq, Repr

/-- The `analysis.optimal_range` object of the part_001 response. -/
structure OptimalRange where
  low : ℚ
  high : ℚ
deriving DecidableEq, Repr

/-- The `analysis` object read by `displayCompetitorResults` in
src/unnamed/part_001; `top_competitors` is the ranked list whose prefix is
rendered. -/
structure CompetitorAnalysis where
  median_price : ℚ
  avg_price : ℚ
  min_price : ℚ
  max_price : ℚ
  our_position : OurPosition
  optimal_range : OptimalRange
  recommendations : Option (List String)
  top_competitors : List CompetitorV1
deriving DecidableEq, Repr

/-- The `/competitors/analyze` response as read by
`displayCompetitorResults` in src/unnamed/part_001. -/
structure AnalyzeResponse where
  competitors : Option (List CompetitorV1)
  analysis : Option CompetitorAnalysis
  our_product : Option OurProduct
  total_competitors : ℕ
deriving DecidableEq, Repr

/-- The observable outcome of `displayCompetitorResults`
(src/unnamed/part_001). -/
inductive AnalyzeRender where
  | noCompetitors
  | results (analysis : CompetitorAnalysis) (our : OurProduct)
      (top : List CompetitorV1)
deriving DecidableEq, Repr

/-- Embedding of `displayCompetitorResults(data)` from
src/unnamed/part_001 (lines 326–452).  The guard `!data.competitors ||
data.competitors.length === 0` renders the warning alert and returns;
otherwise the code reads `data.analysis` and `data.our_product` (a
TypeError if absent) and renders `analysis.top_competitors.slice(0, 5)`. -/
def displayCompetitorResults (data : AnalyzeResponse) :
    Except String AnalyzeRender :=
  match data.competitors with
  | none => .ok .noCompetitors
  | some cs =>
    if cs.length = 0 then .ok .noCompetitors
    else
      match data.analysis, data.our_product with
      | some a, some p => .ok (.results a p (a.top_competitors.take 5))
      | _, _ => .error "TypeError: cannot read properties of undefined"

/-! ## C4: displayed optimal price (part_000, `displayPriceOptimization`) -/

/-- The `price_range` object of the full-analysis response. -/
structure PriceRange where
  min : Option ℚ
  max : Option ℚ
  median : Option ℚ
deriving DecidableEq, Repr

/-- The `price_optimization` object of the full-analysis response; the
`optimal_price` member may itself be absent. -/
structure PriceOptimization where
  optimal_price : Option ℚ
  price_range : Option PriceRange
deriving DecidableEq, Repr

/-- The slice of the `/analyze/full` response read by
`displayPriceOptimization` in src/unnamed/part_000 (lines 131–165). -/
structure FullAnalysis where
  current_price : ℚ
  cost : ℚ
  price_optimization : Option PriceOptimization
deriving DecidableEq, Repr

/-- Rounding to one decimal place, as produced by `toFixed(1)` on an exact
decimal value (ties go to the larger candidate, matching `round`). -/
def toFixed1 (x : ℚ) : ℚ := round (x * 10) / 10

/-- Embedding of `data.price_optimization?.optimal_price || currentPrice`
from src/unnamed/part_000 (line 133): optional chaining yields undefined
when `price_optimization` is absent, and `||` falls back to the current
price on the falsy values undefined and 0. -/
def displayedOptimalPrice (data : FullAnalysis) : ℚ :=
  match data.price_optimization with
  | none => data.current_price
  | some po =>
    match po.optimal_price with
    | none => data.current_price
    | some p => if p = 0 then data.current_price else p

/-- Embedding of the displayed change
`((optimalPrice - currentPrice) / currentPrice * 100).toFixed(1)` from
src/unnamed/part_000 (line 134). -/
def displayedPriceChange (data : FullAnalysis) : ℚ :=
  toFixed1 ((displayedOptimalPrice data - data.current_price) /
    data.current_price * 100)

/-! ## C6: displayed margin -/

/-- Embedding of the margin expression
`((p.current_price - p.cost) / p.current_price * 100).toFixed(1)`, which
appears verbatim in src/unnamed/part_000 (line 124, `displayProductInfo`),
src/static/js/app.js (line 233, `loadProducts`) and — with the cost field
spelled `cost_price` — src/unnamed/part_001 (line 193, `loadProducts`). -/
def displayedMargin (current_price cost : ℚ) : ℚ :=
  toFixed1 ((current_price - cost) / current_price * 100)

/-- The glossary's margin definition: `(price − cost) / price`. -/
def marginSpec (price cost : ℚ) : ℚ := (price - cost) / price

/-! ## C2: demand projection (engine, spec-modelled) -/

/-- Modelled from the spec: the PriceSearch demand projection (§4.4),
whose engine implementation is not part of src/.  For a candidate price
`P`, `Q(P) = Q0 * (P / current_price) ^ coefficient * seasonality.factor`,
floored at 0.  Prices and the elasticity coefficient are real numbers and
`^` is the real power. -/
noncomputable def Qdemand (Q0 currentPrice coefficient factor P : ℝ) : ℝ :=
  max 0 (Q0 * (P / currentPrice) ^ coefficient * factor)

/-! ## C5: scenario generation (engine, spec-modelled) and the scenario
renderer (app.js) -/

/-- A pricing `Scenario` as specified in §3. -/
structure Scenario where
  name : String
  price : ℚ
  predicted_sales : ℚ
  predicted_revenue : ℚ
  predicted_profit : ℚ
  is_recommended : Bool
deriving DecidableEq, Repr

/-- Modelled from the spec: the ScenarioGenerator (§4.5), whose engine
implementation is not part of src/.  It evaluates the fixed named set
"current", "conservative −5%", "aggressive +10%" and "optimal"
(= PriceSearch's result) through one demand function `q`, and flags
exactly the optimum with `is_recommended = true`, all others `false`. -/
def generateScenarios (q : ℚ → ℚ) (cost current optimal : ℚ) :
    List Scenario :=
  [⟨"current", current, q current, current * q current,
      (current - cost) * q current, false⟩,
   ⟨"conservative -5%", current * (19/20), q (current * (19/20)),
      current * (19/20) * q (current * (19/20)),
      (current * (19/20) - cost) * q (current * (19/20)), false⟩,
   ⟨"aggressive +10%", current * (11/10), q (current * (11/10)),
      current * (11/10) * q (current * (11/10)),
      (current * (11/10) - cost) * q (current * (11/10)), false⟩,
   ⟨"optimal", optimal, q optimal, optimal * q optimal,
      (optimal - cost) * q optimal, true⟩]

/-- A rendered scenario card: its title and whether it carries the
`recommended` marking. -/
structure ScenarioCard where
  name : String
  recommended : Bool
deriving DecidableEq, Repr

/-- Embedding of `renderScenarioComparison(data)` from
src/static/js/app.js (lines 580–620): with no scenarios nothing is
rendered; otherwise one card per scenario, marked `recommended` iff the
scenario's `is_recommended` flag is set. -/
def renderScenarioComparison (scenarios : List Scenario) :
    List ScenarioCard :=
  if scenarios.length = 0 then []
  else scenarios.map (fun sc => ⟨sc.name, sc.is_recommended⟩)

/-! ## C10: section navigation (`showSection`) -/

/-- The slice of the DOM a `showSection` call observes: the ids of the
content-section elements present on the page, and the visibility of each
element (the `active` class in app.js, `style.display` in the part_000
variant). -/
structure Page where
  ids : List String
  visible : String → Bool

/-- Embedding of `showSection(sectionId)` from src/static/js/app.js
(lines 36–63): removes the `active` class from every content-section
element (`page.ids`), then adds `active` to the element with id
`sectionId` when it exists. -/
def showSection (page : Page) (sectionId : String) : Page :=
  let afterHide : Page :=
    ⟨page.ids, fun i => if i ∈ page.ids then false else page.visible i⟩
  if sectionId ∈ page.ids then
    ⟨afterHide.ids,
      fun i => if i = sectionId then true else afterHide.visible i⟩
  else afterHide

/-- The fixed section-name list of the part_000 `showSection` variant. -/
def knownSections : List String :=
  ["dashboard", "products", "competitors", "optimization"]

/-- Embedding of `showSection(sectionName)` from src/unnamed/part_000
(second document, lines 387–399): hides each known section's element
`${s}-section` that exists, then shows `${sectionName}-section` when it
exists. -/
def showSectionV2 (page : Page) (sectionName : String) : Page :=
  let afterHide : Page :=
    ⟨page.ids, fun i =>
      if i ∈ knownSections.map (fun s => s ++ "-section") ∧ i ∈ page.ids
      then false else page.visible i⟩
  if sectionName ++ "-section" ∈ page.ids then
    ⟨afterHide.ids,
      fun i => if i = sectionName ++ "-section" then true
        else afterHide.visible i⟩
  else afterHide

/-- C1: the claim asserts that every coefficient, including `e = 0`,
receives one of the three classifications, with `|0| < 0.5` forcing
`inelastic`.  The code's JS-falsy guard sends `e = 0` to the "no data"
message instead. -/
theorem interpretElasticity_zero_not_inelastic :
    |(0 : ℚ)| < 1/2 ∧ interpretElasticity 0 = ElasticityInterp.noData ∧
      interpretElasticity 0 ≠ ElasticityInterp.inelastic := by
  refine ⟨by norm_num, ?_, ?_⟩ <;> simp [interpretElasticity]

/-- C1 (amended): for every nonzero elasticity coefficient `e`, the
interpretation is `inelastic` iff `|e| < 0.5`, `moderate` iff
`0.5 ≤ |e| < 1.5`, and `highlyElastic` iff `|e| ≥ 1.5`; the boundary
values are compared exactly.  The coefficient `e = 0` is JS-falsy and
yields the "no data" message instead of a classification. -/
theorem interpretElasticity_classification (e : ℚ) (he : e ≠ 0) :
    (interpretElasticity e = ElasticityInterp.inelastic ↔ |e| < 1/2) ∧
    (interpretElasticity e = ElasticityInterp.moderate ↔ 1/2 ≤ |e| ∧ |e| < 3/2) ∧
    (interpretElasticity e = ElasticityInterp.highlyElastic ↔ 3/2 ≤ |e|) := by
  unfold interpretElasticity
  rw [if_neg he]
  by_cases h1 : |e| < 1/2
  · rw [if_pos h1]
    exact ⟨⟨fun _ => h1, fun _ => rfl⟩,
      ⟨fun h => absurd h (by decide), fun h => absurd h1 (not_lt.mpr h.1)⟩,
      ⟨fun h => absurd h (by decide),
        fun h => absurd h1 (not_lt.mpr (le_trans (by norm_num) h))⟩⟩
  · rw [if_neg h1]
    by_cases h2 : |e| < 3/2
    · rw [if_pos h2]
      exact ⟨⟨fun h => absurd h (by decide), fun h => absurd h h1⟩,
        ⟨fun _ => ⟨not_lt.mp h1, h2⟩, fun _ => rfl⟩,
        ⟨fun h => absurd h (by decide), fun h => absurd h2 (not_lt.mpr h)⟩⟩
    · rw [if_neg h2]
      exact ⟨⟨fun h => absurd h (by decide), fun h => absurd h h1⟩,
        ⟨fun h => absurd h (by decide), fun h => absurd h.2 h2⟩,
        ⟨fun _ => not_lt.mp h2, fun _ => rfl⟩⟩

/-- Witness for C1's amended theorem at the concrete coefficient `1`. -/
theorem interpretElasticity_classification_witness :
    interpretElasticity 1 = ElasticityInterp.moderate :=
  (interpretElasticity_classification 1 (by norm_num)).2.1.mpr (by norm_num)

/-- C8: the request body's `min_reviews` is exactly 500 when the form field
parses to NaN or to 0; every other parsed integer, negative values
included, is sent unchanged. -/
theorem minReviews_fallback :
    minReviewsSent none = 500 ∧ minReviewsSent (some 0) = 500 ∧
      ∀ v : ℤ, v ≠ 0 → minReviewsSent (some v) = v := by
  refine ⟨rfl, rfl, fun v hv => ?_⟩
  simp [minReviewsSent, hv]

/-- Witness for C8 at the concrete parsed value `-3`. -/
theorem minReviews_fallback_witness : minReviewsSent (some (-3)) = -3 :=
  minReviews_fallback.2.2 (-3) (by decide)

/-- C9: `truncate` returns the literal "N/A" on the falsy (empty) string,
returns `s` unchanged when `s.length ≤ n`, otherwise returns the first `n`
characters followed by "...", and the result's length never exceeds
`n + 3`. -/
theorem truncateStr_spec (s : List Char) (n : ℕ) :
    (s = [] → truncateStr s n = "N/A".toList) ∧
    (s ≠ [] → s.length ≤ n → truncateStr s n = s) ∧
    (s ≠ [] → n < s.length → truncateStr s n = s.take n ++ "...".toList) ∧
    (truncateStr s n).length ≤ n + 3 := by
  refine ⟨fun h => by simp [truncateStr, h], fun h hle => ?_, fun h hgt => ?_, ?_⟩
  · simp [truncateStr, h, not_lt.mpr hle]
  · simp [truncateStr, h, hgt]
  · unfold truncateStr
    split
    · simp
    · split
      · rename_i hne hlt
        have htake : (s.take n).length = n := by
          simp [List.length_take]
          omega
        simp [htake]
      · rename_i hne hlt
        simp at hlt
        omega

/-- Witness for C9 at the concrete string "hello" and length 2. -/
theorem truncateStr_spec_witness :
    truncateStr "hello".toList 2 = "he...".toList := by
  have h := (truncateStr_spec "hello".toList 2).2.2.1 (by decide) (by decide)
  rw [h]
  decide

/-- C3: on every response whose filtered competitor set is empty (the
`competitors` field absent or an empty list), both competitor-results
renderers produce the explicit "no competitors found" presentation and
return normally (`Except.ok`, never `Except.error`); the conclusion holds
for every value of the remaining fields, in particular when `market_stats`
or `analysis`/`our_product` are absent — so those fields are never read on
this path (reading them while absent would be the TypeError branch). -/
theorem renderCompetitorResults_empty (d1 : CompetitorResponse)
    (d2 : AnalyzeResponse)
    (h1 : d1.competitors = none ∨ d1.competitors = some [])
    (h2 : d2.competitors = none ∨ d2.competitors = some []) :
    renderCompetitorResults d1 = .ok .noCompetitors ∧
      displayCompetitorResults d2 = .ok .noCompetitors := by
  constructor
  · rcases h1 with h | h <;> simp [renderCompetitorResults, h]
  · rcases h2 with h | h <;> simp [displayCompetitorResults, h]

/-- Witness for C3: a response with no competitor list and absent
statistics, and one with an empty list and absent analysis. -/
theorem renderCompetitorResults_empty_witness :
    renderCompetitorResults ⟨none, none⟩ = .ok .noCompetitors ∧
      displayCompetitorResults ⟨some [], none, none, 0⟩ =
        .ok .noCompetitors :=
  renderCompetitorResults_empty ⟨none, none⟩ ⟨some [], none, none, 0⟩
    (Or.inl rfl) (Or.inr rfl)

/-- C4: when `price_optimization` or its `optimal_price` member is absent,
the displayed optimal price equals the current price and the displayed
price-change percentage is exactly 0; when `optimal_price` is present and
non-zero it is displayed unchanged. -/
theorem displayedOptimalPrice_fallback (data : FullAnalysis)
    (_hpos : 0 < data.current_price) :
    ((data.price_optimization = none ∨
        ∃ po, data.price_optimization = some po ∧ po.optimal_price = none) →
      displayedOptimalPrice data = data.current_price ∧
        displayedPriceChange data = 0) ∧
    (∀ po p, data.price_optimization = some po → po.optimal_price = some p →
      p ≠ 0 → displayedOptimalPrice data = p) := by
  constructor
  · intro h
    have heq : displayedOptimalPrice data = data.current_price := by
      rcases h with h | ⟨po, hpo, hop⟩
      · simp [displayedOptimalPrice, h]
      · simp [displayedOptimalPrice, hpo, hop]
    refine ⟨heq, ?_⟩
    simp [displayedPriceChange, heq, toFixed1]
  · intro po p hpo hop hne
    simp [displayedOptimalPrice, hpo, hop, hne]

/-- Witness for C4: a response with current price 1000 and no
`price_optimization` field. -/
theorem displayedOptimalPrice_fallback_witness :
    displayedOptimalPrice ⟨1000, 500, none⟩ = 1000 ∧
      displayedPriceChange ⟨1000, 500, none⟩ = 0 :=
  (displayedOptimalPrice_fallback ⟨1000, 500, none⟩ (by norm_num)).1
    (Or.inl rfl)

/-- C6: every displayed margin equals `(current_price − cost) /
current_price × 100` rounded to one decimal place — the glossary's
price-relative margin, not the cost-relative one: at price 200 and
cost 100 the displayed value is 50 while the cost-relative formula
gives 100. -/
theorem displayedMargin_eq_spec (price cost : ℚ) (_hpos : 0 < price) :
    displayedMargin price cost = toFixed1 (marginSpec price cost * 100) ∧
      displayedMargin 200 100 = 50 ∧
      toFixed1 ((200 - 100) / (100 : ℚ) * 100) = 100 := by
  refine ⟨rfl, ?_, ?_⟩ <;> norm_num [displayedMargin, marginSpec, toFixed1, round_eq]

/-- Witness for C6 at the concrete price 100 and cost 50. -/
theorem displayedMargin_eq_spec_witness :
    displayedMargin 100 50 = toFixed1 (marginSpec 100 50 * 100) :=
  (displayedMargin_eq_spec 100 50 (by norm_num)).1

/-- C7: for every non-empty competitor list, each renderer shows a prefix
of the ranked list it was supplied — `slice(0, 6)` in app.js,
`slice(0, 10)` in the part_000 variant, `slice(0, 5)` of
`analysis.top_competitors` in part_001 — so each rendered top set has at
most N entries with N ∈ {5, 6, 10} ⊆ [5, 10], and the entries keep the
supplied order (a prefix: some tail `t` completes it to the input). -/
theorem topCompetitors_ranked_slice (cs : List Competitor) (stats : MarketStats)
    (cs1 : List CompetitorV1) (a : CompetitorAnalysis) (p : OurProduct)
    (n : ℕ) (hne : cs ≠ []) (hne1 : cs1 ≠ []) :
    (renderCompetitorResults ⟨some cs, some stats⟩ =
        .ok (.results stats (cs.take 6)) ∧
      (cs.take 6).length ≤ 6 ∧ ∃ t, cs.take 6 ++ t = cs) ∧
    (renderCompetitorResultsV2 ⟨some cs, some stats⟩ =
        .ok (.results stats (cs.take 10)) ∧
      (cs.take 10).length ≤ 10 ∧ ∃ t, cs.take 10 ++ t = cs) ∧
    (displayCompetitorResults ⟨some cs1, some a, some p, n⟩ =
        .ok (.results a p (a.top_competitors.take 5)) ∧
      (a.top_competitors.take 5).length ≤ 5 ∧
      ∃ t, a.top_competitors.take 5 ++ t = a.top_competitors) := by
  have hlen : cs.length ≠ 0 := fun h => hne (List.length_eq_zero.mp h)
  have hlen1 : cs1.length ≠ 0 := fun h => hne1 (List.length_eq_zero.mp h)
  refine ⟨⟨?_, List.length_take_le 6 cs, cs.drop 6, cs.take_append_drop 6⟩,
    ⟨?_, List.length_take_le 10 cs, cs.drop 10, cs.take_append_drop 10⟩,
    ⟨?_, List.length_take_le 5 a.top_competitors,
      a.top_competitors.drop 5, a.top_competitors.take_append_drop 5⟩⟩
  · simp [renderCompetitorResults, hlen]
  · simp [renderCompetitorResultsV2, hlen]
  · simp [displayCompetitorResults, hlen1]

/-- C2: the claim — `Q(current_price) == Q0` exactly for any elasticity
and any seasonality factor — fails on the spec's own formula: with
`Q0 = 1`, `current_price = 1`, `coefficient = 0` and seasonality factor 2,
the projection at the current price is 2, not the baseline 1. -/
theorem Qdemand_at_current_counterexample :
    Qdemand 1 1 0 2 1 = 2 ∧ Qdemand 1 1 0 2 1 ≠ 1 := by
  have h : Qdemand 1 1 0 2 1 = 2 := by
    unfold Qdemand
    rw [div_self (by norm_num : (1:ℝ) ≠ 0), Real.one_rpow]
    norm_num
  exact ⟨h, by rw [h]; norm_num⟩

/-- C2 (amended): at the current price the demand projection returns the
baseline scaled by the seasonality factor,
`Q(current_price) = Q0 * factor`; it equals `Q0` exactly when the factor
is the neutral 1.0. -/
theorem Qdemand_at_current (Q0 curr coef factor : ℝ) (hcurr : 0 < curr)
    (hQ0 : 0 ≤ Q0) (hf : 0 ≤ factor) :
    Qdemand Q0 curr coef factor curr = Q0 * factor := by
  unfold Qdemand
  rw [div_self (ne_of_gt hcurr), Real.one_rpow, mul_one]
  exact max_eq_right (mul_nonneg hQ0 hf)

/-- Witness for C2's amended theorem: `Q0 = 3`, current price 2,
coefficient 5, neutral factor 1. -/
theorem Qdemand_at_current_witness : Qdemand 3 2 5 1 2 = 3 * 1 :=
  Qdemand_at_current 3 2 5 1 (by norm_num) (by norm_num) (by norm_num)

/-- C5: every scenario list the generator produces has exactly one
scenario with `is_recommended = true` (the optimum), and the scenario
renderer consequently marks exactly one card as recommended. -/
theorem generateScenarios_one_recommended (q : ℚ → ℚ)
    (cost current optimal : ℚ) :
    ((generateScenarios q cost current optimal).countP
        (fun sc => sc.is_recommended) = 1) ∧
    ((renderScenarioComparison (generateScenarios q cost current optimal)).countP
        (fun c => c.recommended) = 1) := by
  constructor <;> rfl

/-- C10: after `showSection(name)` at most one content section is visible
— every known section other than the target is hidden, the target is shown
exactly when its element exists, and a repeated call leaves the visibility
state unchanged.  The first five conjuncts cover the app.js variant, the
last three the part_000 variant (whose known set is the fixed
`knownSections` list). -/
theorem showSection_at_most_one (page : Page) (name : String) :
    (∀ i ∈ page.ids, i ≠ name →
      (showSection page name).visible i = false) ∧
    (name ∈ page.ids → (showSection page name).visible name = true) ∧
    (name ∉ page.ids →
      ∀ i ∈ page.ids, (showSection page name).visible i = false) ∧
    (∀ i ∈ page.ids, ∀ j ∈ page.ids,
      (showSection page name).visible i = true →
      (showSection page name).visible j = true → i = j) ∧
    (∀ i, (showSection (showSection page name) name).visible i =
      (showSection page name).visible i) ∧
    (∀ s ∈ knownSections, s ++ "-section" ∈ page.ids →
      s ++ "-section" ≠ name ++ "-section" →
      (showSectionV2 page name).visible (s ++ "-section") = false) ∧
    (name ++ "-section" ∈ page.ids →
      (showSectionV2 page name).visible (name ++ "-section") = true) ∧
    (∀ i, (showSectionV2 (showSectionV2 page name) name).visible i =
      (showSectionV2 page name).visible i) := by
  have hA : ∀ i ∈ page.ids, i ≠ name →
      (showSection page name).visible i = false := by
    intro i hi hne
    by_cases hn : name ∈ page.ids <;> simp [showSection, hn, hne, hi]
  have hB : name ∈ page.ids → (showSection page name).visible name = true := by
    intro hn
    simp [showSection, hn]
  have hC : name ∉ page.ids →
      ∀ i ∈ page.ids, (showSection page name).visible i = false := by
    intro hn i hi
    simp [showSection, hn, hi]
  have hD : ∀ i ∈ page.ids, ∀ j ∈ page.ids,
      (showSection page name).visible i = true →
      (showSection page name).visible j = true → i = j := by
    intro i hi j hj hvi hvj
    by_cases h1 : i = name
    · by_cases h2 : j = name
      · rw [h1, h2]
      · rw [hA j hj h2] at hvj
        exact absurd hvj (by simp)
    · rw [hA i hi h1] at hvi
      exact absurd hvi (by simp)
  have hE : ∀ i, (showSection (showSection page name) name).visible i =
      (showSection page name).visible i := by
    intro i
    by_cases hn : name ∈ page.ids <;> by_cases h1 : i = name <;>
      by_cases h2 : i ∈ page.ids <;> simp [showSection, hn, h1, h2]
  have hF : ∀ s ∈ knownSections, s ++ "-section" ∈ page.ids →
      s ++ "-section" ≠ name ++ "-section" →
      (showSectionV2 page name).visible (s ++ "-section") = false := by
    intro s hs hmem hne
    by_cases hn : name ++ "-section" ∈ page.ids <;>
      simp [showSectionV2, hn, hne, hmem] <;>
      intro h <;> exact absurd rfl (h s hs)
  have hG : name ++ "-section" ∈ page.ids →
      (showSectionV2 page name).visible (name ++ "-section") = true := by
    intro hn
    simp [showSectionV2, hn]
  have hH : ∀ i, (showSectionV2 (showSectionV2 page name) name).visible i =
      (showSectionV2 page name).visible i := by
    intro i
    by_cases hn : name ++ "-section" ∈ page.ids <;>
      by_cases h1 : i = name ++ "-section" <;>
      by_cases h2 : i ∈ page.ids <;>
      by_cases h3 : i ∈ knownSections.map (fun x => x ++ "-section") <;>
      simp [showSectionV2, hn, h1, h2, h3]
  exact ⟨hA, hB, hC, hD, hE, hF, hG, hH⟩

/-- Witness for C10 on a two-section page showing "dashboard" while
"products" was visible. -/
theorem showSection_at_most_one_witness :
    (showSection ⟨["dashboard", "products"], fun i => i == "products"⟩
        "dashboard").visible "dashboard" = true ∧
    (showSection ⟨["dashboard", "products"], fun i => i == "products"⟩
        "dashboard").visible "products" = false :=
  ⟨(showSection_at_most_one
        ⟨["dashboard", "products"], fun i => i == "products"⟩
        "dashboard").2.1 (by decide),
    (showSection_at_most_one
        ⟨["dashboard", "products"], fun i => i == "products"⟩
        "dashboard").1 "products" (by decide) (by decide)⟩

/-- Witness for C7 on a one-element competitor list. -/
theorem topCompetitors_ranked_slice_witness :
    renderCompetitorResults
        ⟨some [⟨1, 100, 5, 10, 1, none⟩], some ⟨1, 100, 100, 100, 100⟩⟩ =
      .ok (.results ⟨1, 100, 100, 100, 100⟩ [⟨1, 100, 5, 10, 1, none⟩]) := by
  have h := (topCompetitors_ranked_slice [⟨1, 100, 5, 10, 1, none⟩]
      ⟨1, 100, 100, 100, 100⟩ [⟨1, "a", "b", 100, 10, 5⟩]
      ⟨100, 100, 100, 100, ⟨50, "mid"⟩, ⟨95, 105⟩, none, []⟩
      ⟨"n", "c", "s", 100, 10, 5⟩ 1
      (by simp) (by simp)).1.1
  simpa using h
